import Mathlib

/-!
Verification development for the Reddit monitoring service of this repository.

The embedding covers the core loop documented in the spec: the content source
adapter (`RedditService.searchPosts`, `calculateUrgencyScore`,
`determinePriority` from the reddit service module), the in-memory
deduplicating store (`MemStorage`), and the scan orchestrator / scheduler
(`MonitoringService.startMonitoring`, `stopMonitoring`, `scanReddit`,
`getStatus` from the monitoring service module).

Modelling conventions:
* JavaScript numbers are modelled as `ℚ` (the scoring formulas involve only
  exact decimal constants, additions, divisions by constants and `min`/`max`,
  so the rational model is the idealised arithmetic of the source).
* `Date` values used only as opaque timestamps are modelled as `ℕ`;
  `Date.now()` milliseconds used by the freshness computation are a `ℚ`.
* Asynchronous external calls (the Reddit fetch per subreddit, the LLM
  drafting call) are modelled as oracle inputs: either a value or a thrown
  error (`Except`).  A `try`/`catch` in the source becomes a `match` on the
  oracle result.
* The random UUID surrogate key of `MemStorage.createPost` is omitted from
  the `Post` record: no claim concerns it, and it is independent of every
  other field.  All other fields of the source records are kept.
-/

namespace RedditAgent

/-- Priority category of a post, ordered `low < medium < high < critical`. -/
inductive Priority where
  | low
  | medium
  | high
  | critical
deriving DecidableEq, Repr, BEq

/-- The numeric rank the source assigns to each priority when sorting
(`priorityOrder` object literal in `searchPosts`; the `|| 1` fallback of the
lookup is unreachable because the table is total on the four categories). -/
def priorityOrder : Priority → ℕ
  | .critical => 4
  | .high => 3
  | .medium => 2
  | .low => 1

/-- A raw Reddit submission as returned by the upstream API: the fields of
`post` that `searchPosts` reads (`id`, `title`, `selftext`, `author`, `ups`,
`num_comments`, `permalink`, `created_utc`). -/
structure RawPost where
  id : String
  title : String
  selftext : String
  author : String
  ups : ℚ
  num_comments : ℚ
  permalink : String
  created_utc : ℚ
deriving DecidableEq, Repr

/-- Substring test on `List Char`: the needle occurs contiguously in the
haystack.  This is the semantics of JavaScript `String.prototype.includes`. -/
def charsIncl (needle : List Char) : List Char → Bool
  | [] => needle.isEmpty
  | c :: cs => needle.isPrefixOf (c :: cs) || charsIncl needle cs

/-- JavaScript `hay.includes(needle)`. -/
def jsIncludes (hay needle : String) : Bool :=
  charsIncl needle.toList hay.toList

/-- `` `${post.title} ${post.selftext}`.toLowerCase() `` -/
def postTextOf (p : RawPost) : String :=
  (p.title ++ " " ++ p.selftext).toLower

/-- The fixed urgency lexicon of `calculateUrgencyScore`. -/
def urgentKeywords : List String :=
  ["help", "urgent", "asap", "problem", "error", "broken", "issue", "bug"]

/-- The fixed question-indicator lexicon of `calculateUrgencyScore`. -/
def questionIndicators : List String :=
  ["?", "how", "what", "why", "where", "when", "which", "can someone"]

/-- `RedditService.calculateUrgencyScore(post, matchedKeywords, allKeywords)`:
weighted sum of keyword coverage, engagement, freshness, urgency-lexicon and
question-lexicon bonuses, capped at 1.  `now_ms` is `Date.now()`. -/
def calculateUrgencyScore (now_ms : ℚ) (p : RawPost)
    (matchedKeywords allKeywords : List String) : ℚ :=
  let keywordFrac : ℚ := (matchedKeywords.length : ℚ) / (allKeywords.length : ℚ)
  let engagementScore : ℚ := min 0.25 ((p.ups + p.num_comments) / 100)
  let hoursOld : ℚ := (now_ms - p.created_utc * 1000) / (1000 * 60 * 60)
  let freshnessScore : ℚ := max 0 (0.2 - hoursOld / 24 * 0.2)
  let urgentMatches := urgentKeywords.filter (fun w => jsIncludes (postTextOf p) w)
  let questionMatches := questionIndicators.filter (fun w => jsIncludes (postTextOf p) w)
  min 1 (keywordFrac * 0.3 + engagementScore + freshnessScore
    + min 0.15 ((urgentMatches.length : ℚ) * 0.05)
    + min 0.1 ((questionMatches.length : ℚ) * 0.02))

/-- `RedditService.determinePriority(urgencyScore)`. -/
def determinePriority (urgencyScore : ℚ) : Priority :=
  if urgencyScore ≥ 0.8 then .critical
  else if urgencyScore ≥ 0.6 then .high
  else if urgencyScore ≥ 0.4 then .medium
  else .low

/-- The record `searchPosts` pushes for each matching post — the shape of
`InsertPost` (a `Post` before the store adds surrogate id and `createdAt`).
`proposedReply` is absent at this point (`none`); the orchestrator may fill it
in before persisting. -/
structure InsertPost where
  redditId : String
  subreddit : String
  title : String
  content : String
  author : String
  upvotes : ℚ
  comments : ℚ
  postUrl : String
  matchReason : String
  tags : List String
  priority : Priority
  score : ℚ
  highlighted : Bool
  posted : Bool
  confidence : ℚ
  proposedReply : Option String := none
deriving DecidableEq, Repr

/-- Outcome of the upstream per-subreddit fetch
(`reddit.getSubreddit(s).getNew(...)`): the awaited list of raw posts, or a
thrown error.  The per-channel `limit` argument of `getNew` only shapes what
the upstream returns, so it is absorbed into this oracle. -/
inductive Fetch where
  | ok (posts : List RawPost)
  | err (msg : String)
deriving Repr

/-- The keywords whose lowercase form occurs in the combined lowercase
title+body of the post (`keywords.filter(k => postText.includes(k.toLowerCase()))`). -/
def matchedKeywordsFor (keywords : List String) (p : RawPost) : List String :=
  keywords.filter (fun k => jsIncludes (postTextOf p) k.toLower)

/-- The candidate object literal `searchPosts` builds for a matching post.
The author branch models the string case of the `typeof post.author`
runtime check, including the `|| 'unknown'` falsy default; the
`.toFixed(2)` urgency suffix of `matchReason` (pure string formatting of the
score) is abstracted away. -/
def mkCandidate (now_ms : ℚ) (subredditName : String) (allKeywords : List String)
    (p : RawPost) (matched : List String) : InsertPost :=
  let urgencyScore := calculateUrgencyScore now_ms p matched allKeywords
  let priority := determinePriority urgencyScore
  { redditId := p.id
    subreddit := "r/" ++ subredditName
    title := p.title
    content := if p.selftext = "" then "No content" else p.selftext
    author := "u/" ++ (if p.author = "" then "unknown" else p.author)
    upvotes := p.ups
    comments := p.num_comments
    postUrl := "https://reddit.com" ++ p.permalink
    matchReason := "Matches keywords: " ++ String.intercalate ", " matched
    tags := matched
    priority := priority
    score := urgencyScore
    highlighted := priority == Priority.high || priority == Priority.critical
    posted := false
    confidence := min 0.95 (0.6 + urgencyScore * 0.3) }

/-- The candidates one successfully fetched subreddit contributes, in upstream
order: posts with at least one matched keyword, mapped through `mkCandidate`. -/
def channelPosts (now_ms : ℚ) (keywords : List String) (subredditName : String)
    (raw : List RawPost) : List InsertPost :=
  raw.filterMap (fun p =>
    let matched := matchedKeywordsFor keywords p
    if matched.length > 0 then some (mkCandidate now_ms subredditName keywords p matched)
    else none)

/-- Comparator order of the final `posts.sort`: descending priority rank,
ties broken by descending score (`le a b` holds when the comparator value
`(b,a)` is nonpositive, i.e. `a` may come before `b`). -/
def sortLe (a b : InsertPost) : Bool :=
  if priorityOrder a.priority = priorityOrder b.priority then decide (b.score ≤ a.score)
  else decide (priorityOrder b.priority ≤ priorityOrder a.priority)

/-- The final stable sort of `searchPosts` (JavaScript `Array.prototype.sort`
is stable). -/
def sortPosts (l : List InsertPost) : List InsertPost :=
  l.mergeSort sortLe

/-- The subreddit loop of `RedditService.searchPosts`: each channel either
contributes its matching candidates to the accumulator, or throws; a thrown
channel is rethrown when the accumulator is empty (`posts.length === 0`) and
skipped otherwise. -/
def searchPostsAux (now_ms : ℚ) (keywords : List String) :
    List (String × Fetch) → List InsertPost → Except String (List InsertPost)
  | [], acc => .ok acc
  | (sub, Fetch.ok raw) :: rest, acc =>
      searchPostsAux now_ms keywords rest (acc ++ channelPosts now_ms keywords sub raw)
  | (sub, Fetch.err msg) :: rest, acc =>
      if acc.length = 0 then
        .error ("Failed to fetch posts from r/" ++ sub ++ ": " ++ msg)
      else searchPostsAux now_ms keywords rest acc

/-- `RedditService.searchPosts(subreddits, keywords)`, with the per-subreddit
upstream responses supplied as the `channels` oracle.  (The `!this.reddit`
initial throw is handled by the caller's `isConfigured` guard, see
`scanReddit`.) -/
def searchPosts (now_ms : ℚ) (channels : List (String × Fetch))
    (keywords : List String) : Except String (List InsertPost) :=
  (searchPostsAux now_ms keywords channels []).map sortPosts

/-- The candidates contributed by the successfully fetched channels of a
channel list, in order — the "partial data" a scan continues with. -/
def okContrib (now_ms : ℚ) (keywords : List String) :
    List (String × Fetch) → List InsertPost
  | [] => []
  | (sub, Fetch.ok raw) :: rest =>
      channelPosts now_ms keywords sub raw ++ okContrib now_ms keywords rest
  | (_, Fetch.err _) :: rest => okContrib now_ms keywords rest

/-- A persisted `Post` record: an `InsertPost` plus the `createdAt` the store
stamps in `MemStorage.createPost` (the random UUID surrogate key is omitted,
see the module comment). -/
structure Post extends InsertPost where
  createdAt : ℕ
deriving DecidableEq, Repr

/-- `MemStorage.createPost(insertPost)`: stamps the creation time and stores
the record.  The caller appends the result to the store. -/
def createPost (now : ℕ) (insertPost : InsertPost) : Post :=
  { insertPost with createdAt := now }

/-- Modelled from the spec: `storage.postExistsByRedditId(redditId)` is called
by the scan loop of the monitoring service, but its implementation is not
among the source files (the `MemStorage` file present there predates it).
The spec describes the Deduplicating Store as a "persistence abstraction keyed
by external item id" supporting an "existence check ... by external id", so it
is modelled as: some stored post has the given external id. -/
def postExistsByRedditId (posts : List Post) (redditId : String) : Bool :=
  posts.any (fun p => p.redditId == redditId)

/-- The singleton monitoring configuration record (`monitoring_config` row);
surrogate `id`/`createdAt` omitted as for `Post`. -/
structure MonitoringConfig where
  subreddits : List String
  keywords : List String
  scanInterval : ℚ
  isActive : Bool
  lastScanTime : Option ℕ
  totalPosts : ℕ
  newPosts : ℕ
deriving DecidableEq, Repr

/-- The state owned by `MemStorage` that the monitoring loop touches: the
posts (in insertion order), the singleton config, and the knowledge-base
contents (`getKnowledgeBase().map(kb => kb.content)` — read-only here). -/
structure StoreState where
  posts : List Post
  config : Option MonitoringConfig
  knowledge : List String
deriving DecidableEq, Repr

/-- The typed WebSocket broadcasts of `MonitoringService`. -/
inductive Event where
  | monitoringStarted (subreddits keywords : List String) (scanInterval : ℚ)
  | monitoringStopped
  | newPost (post : Post)
  | scanComplete (totalPosts newPosts : ℕ) (timestamp : ℕ)
  | scanError (msg : String)
deriving DecidableEq, Repr

/-- The LLM response consumed by the scan loop (`generateRedditReply` result;
the `reasoning` field is unused by the loop). -/
structure AIResponse where
  reply : String
  confidence : ℚ
deriving DecidableEq, Repr

/-- Oracle for the external `generateRedditReply(title, content, subreddit,
knowledgeContent)` call: a response, or a thrown error. -/
def DraftFn : Type :=
  String → String → String → List String → Except String AIResponse

/-- Accumulator of the per-candidate loop inside `scanReddit`: the evolving
post store, the events broadcast so far, `newPostsCount`, and (ghost
instrumentation) the external ids for which the drafting adapter was
invoked. -/
structure ScanAcc where
  posts : List Post
  events : List Event
  newCount : ℕ
  drafted : List String
deriving Repr

/-- One iteration of the `for (const postData of posts)` loop of
`scanReddit`: skip when the external id already exists; otherwise attempt a
draft — on success persist with the drafted reply and confidence and
broadcast a `newPost` event, on a thrown draft persist the candidate as-is
and broadcast nothing (the `catch` branch).  Both creation paths increment
`newPostsCount`. -/
def scanStep (draft : DraftFn) (knowledge : List String) (now : ℕ)
    (acc : ScanAcc) (c : InsertPost) : ScanAcc :=
  if postExistsByRedditId acc.posts c.redditId then acc
  else
    match draft c.title c.content c.subreddit knowledge with
    | .ok ai =>
        let p := createPost now
          { c with proposedReply := some ai.reply, confidence := ai.confidence }
        { posts := acc.posts ++ [p]
          events := acc.events ++ [.newPost p]
          newCount := acc.newCount + 1
          drafted := acc.drafted ++ [c.redditId] }
    | .error _ =>
        let p := createPost now c
        { posts := acc.posts ++ [p]
          events := acc.events
          newCount := acc.newCount + 1
          drafted := acc.drafted ++ [c.redditId] }

/-- Result of one orchestrator operation: the store afterwards, the events
broadcast (in order), and the ghost list of drafted external ids. -/
structure ScanResult where
  state : StoreState
  events : List Event
  drafted : List String
deriving Repr

/-- `MonitoringService.scanReddit(subreddits, keywords)` with the outcome of
`redditService.searchPosts` supplied as `fetched`: an unconfigured service
returns silently; a fetch error is caught and broadcast as `scanError`;
otherwise each candidate is processed by `scanStep`, the config (when one
exists) gets `lastScanTime := now`, `totalPosts += posts.length`,
`newPosts := newPostsCount`, and a final `scanComplete` event is broadcast. -/
def scanReddit (configured : Bool) (fetched : Except String (List InsertPost))
    (draft : DraftFn) (now : ℕ) (st : StoreState) : ScanResult :=
  if !configured then { state := st, events := [], drafted := [] }
  else
    match fetched with
    | .error e => { state := st, events := [.scanError e], drafted := [] }
    | .ok posts =>
        let acc := posts.foldl (scanStep draft st.knowledge now)
          { posts := st.posts, events := [], newCount := 0, drafted := [] }
        let config := match st.config with
          | some c => some { c with
              lastScanTime := some now
              totalPosts := c.totalPosts + posts.length
              newPosts := acc.newCount }
          | none => none
        { state := { posts := acc.posts, config := config, knowledge := st.knowledge }
          events := acc.events ++ [.scanComplete posts.length acc.newCount now]
          drafted := acc.drafted }

/-- The environment of external collaborators a scan cycle consumes: whether
the Reddit client is initialized, the per-subreddit fetch oracle, the draft
oracle, `Date.now()` in milliseconds, and the timestamp used for stored
dates. -/
structure ScanEnv where
  configured : Bool
  fetch : String → Fetch
  draft : DraftFn
  now_ms : ℚ
  now : ℕ

/-- The composed scan cycle: `scanReddit` applied to the actual
`redditService.searchPosts` outcome for the given subreddits. -/
def scanRedditFull (env : ScanEnv) (subreddits keywords : List String)
    (st : StoreState) : ScanResult :=
  scanReddit env.configured
    (searchPosts env.now_ms (subreddits.map (fun s => (s, env.fetch s))) keywords)
    env.draft env.now st

/-- The in-memory state of `MonitoringService`: the repeating-timer handle
(carrying the subreddits/keywords the installed callback closes over and the
interval in minutes) together with the shared store. -/
structure MonState where
  timer : Option (List String × List String × ℚ)
  store : StoreState
deriving Repr

/-- Result of a lifecycle operation. -/
structure LifeResult where
  state : MonState
  events : List Event
  drafted : List String
deriving Repr

/-- `MonitoringService.stopMonitoring()`: clears the interval handle if one
exists, re-persists the config (when one exists) with `isActive := false`,
and broadcasts exactly one `monitoringStopped` event.  The function is total:
no path throws. -/
def stopMonitoring (st : MonState) : LifeResult :=
  { state :=
      { timer := none
        store := { st.store with
          config := st.store.config.map (fun c => { c with isActive := false }) } }
    events := [.monitoringStopped]
    drafted := [] }

/-- `MonitoringService.startMonitoring(subreddits, keywords, scanInterval)`:
persists a fresh config (`isActive := true`, `lastScanTime := now`, both
counters 0), then calls `stopMonitoring()` (which clears any previous timer —
and also flips the just-saved flag and broadcasts `monitoringStopped`), then
installs the repeating timer, runs the initial scan, and broadcasts
`monitoringStarted`. -/
def startMonitoring (env : ScanEnv) (st : MonState)
    (subreddits keywords : List String) (scanInterval : ℚ) : LifeResult :=
  let store1 : StoreState := { st.store with
    config := some
      { subreddits := subreddits
        keywords := keywords
        scanInterval := scanInterval
        isActive := true
        lastScanTime := some env.now
        totalPosts := 0
        newPosts := 0 } }
  let r1 := stopMonitoring { st with store := store1 }
  let timer2 : Option (List String × List String × ℚ) :=
    some (subreddits, keywords, scanInterval)
  let r2 := scanRedditFull env subreddits keywords r1.state.store
  { state := { timer := timer2, store := r2.state }
    events := r1.events ++ r2.events ++ [.monitoringStarted subreddits keywords scanInterval]
    drafted := r2.drafted }

/-- The snapshot returned by `MonitoringService.getStatus()`. -/
structure Status where
  isActive : Bool
  subreddits : List String
  keywords : List String
  scanInterval : ℚ
  lastScanTime : Option ℕ
  totalPosts : ℕ
  newPosts : ℕ
deriving DecidableEq, Repr

/-- JavaScript `x || d` on an optional number: `undefined` and `0` are falsy. -/
def jsOrQ (x : Option ℚ) (d : ℚ) : ℚ :=
  match x with
  | none => d
  | some v => if v = 0 then d else v

/-- JavaScript `x || d` on an optional nonnegative integer. -/
def jsOrNat (x : Option ℕ) (d : ℕ) : ℕ :=
  match x with
  | none => d
  | some v => if v = 0 then d else v

/-- `MonitoringService.getStatus()`: each field is `config?.field || default`
(arrays are always truthy in JavaScript, so the list defaults only apply when
no config exists; `lastScanTime` has no `||` default and stays optional). -/
def getStatus (st : StoreState) : Status :=
  { isActive := (st.config.map (fun c => c.isActive)).getD false
    subreddits := (st.config.map (fun c => c.subreddits)).getD []
    keywords := (st.config.map (fun c => c.keywords)).getD []
    scanInterval := jsOrQ (st.config.map (fun c => c.scanInterval)) 5
    lastScanTime := st.config.bind (fun c => c.lastScanTime)
    totalPosts := jsOrNat (st.config.map (fun c => c.totalPosts)) 0
    newPosts := jsOrNat (st.config.map (fun c => c.newPosts)) 0 }

/-- The loop state after `scanReddit` has processed all candidates of one
cycle, starting from the current store with no events, zero new posts and no
drafts. -/
def scanLoop (draft : DraftFn) (now : ℕ) (st : StoreState)
    (cs : List InsertPost) : ScanAcc :=
  cs.foldl (scanStep draft st.knowledge now)
    { posts := st.posts, events := [], newCount := 0, drafted := [] }

/-! ### Concrete instances used by witnesses and counterexamples -/

/-- Concrete input for the C2 witness. -/
def c2raw : RawPost :=
  { id := "w1", title := "Need react help", selftext := "", author := "alice",
    ups := 5, num_comments := 2, permalink := "/r/demo/w1", created_utc := 0 }

/-- A stored post (C1 witness). -/
def c1post : Post :=
  { redditId := "dup1", subreddit := "r/demo", title := "old title",
    content := "old body", author := "u/old", upvotes := 1, comments := 0,
    postUrl := "https://reddit.com/old", matchReason := "m", tags := [],
    priority := Priority.low, score := 0, highlighted := false, posted := false,
    confidence := 0, proposedReply := none, createdAt := 0 }

/-- A store already holding `c1post` (C1 witness). -/
def c1store : StoreState :=
  { posts := [c1post], config := none, knowledge := [] }

/-- A candidate carrying the already-stored external id (C1 witness). -/
def c1cand : InsertPost :=
  { redditId := "dup1", subreddit := "r/demo", title := "fresh title",
    content := "fresh body", author := "u/new", upvotes := 9, comments := 9,
    postUrl := "https://reddit.com/new", matchReason := "m2", tags := [],
    priority := Priority.high, score := 1, highlighted := true, posted := false,
    confidence := 1, proposedReply := none }

/-- Draft oracle that always succeeds (C1 witness). -/
def c1draft : DraftFn :=
  fun _ _ _ _ => Except.ok { reply := "hello", confidence := 1 }

/-- Environment with an unconfigured Reddit client (C4). -/
def c4env : ScanEnv :=
  { configured := false, fetch := fun _ => Fetch.err "unconfigured",
    draft := fun _ _ _ _ => Except.error "unconfigured", now_ms := 0, now := 0 }

/-- Fresh service state (C4). -/
def c4st : MonState :=
  { timer := none, store := { posts := [], config := none, knowledge := [] } }

/-- A new candidate (C6). -/
def c6cand : InsertPost :=
  { redditId := "new1", subreddit := "r/demo", title := "t", content := "c",
    author := "u/a", upvotes := 1, comments := 0, postUrl := "p",
    matchReason := "m", tags := [], priority := Priority.low, score := 0,
    highlighted := false, posted := false, confidence := 0, proposedReply := none }

/-- Draft oracle that always throws (C6). -/
def c6draft : DraftFn :=
  fun _ _ _ _ => Except.error "llm down"

/-- A persisted monitoring config (C7 witness). -/
def c7cfg : MonitoringConfig :=
  { subreddits := ["demo"], keywords := ["react"], scanInterval := 5,
    isActive := true, lastScanTime := none, totalPosts := 2, newPosts := 1 }

/-- A store holding `c7cfg` (C7 witness). -/
def c7store : StoreState :=
  { posts := [], config := some c7cfg, knowledge := [] }

/-- Draft oracle (C7 witness; never reached on an empty candidate list). -/
def c7draft : DraftFn :=
  fun _ _ _ _ => Except.error "x"

/-- A persisted monitoring config with nonzero counters (C8). -/
def c8cfg : MonitoringConfig :=
  { subreddits := ["demo"], keywords := ["react"], scanInterval := 5,
    isActive := true, lastScanTime := none, totalPosts := 7, newPosts := 3 }

/-- A store holding `c8cfg` (C8). -/
def c8store : StoreState :=
  { posts := [], config := some c8cfg, knowledge := [] }

/-- Environment with an unconfigured Reddit client (C8). -/
def c8env : ScanEnv :=
  { configured := false, fetch := fun _ => Fetch.err "unreachable",
    draft := fun _ _ _ _ => Except.error "x", now_ms := 0, now := 0 }

/-! ### Helper lemmas about the per-candidate scan loop -/

/-- The external ids stored in a post list. -/
def storeIds (posts : List Post) : List String :=
  posts.map (fun p => p.redditId)

theorem storeIds_append (l₁ l₂ : List Post) :
    storeIds (l₁ ++ l₂) = storeIds l₁ ++ storeIds l₂ :=
  List.map_append _ _ _

theorem postExists_iff (posts : List Post) (rid : String) :
    postExistsByRedditId posts rid = true ↔ rid ∈ storeIds posts := by
  unfold postExistsByRedditId storeIds
  rw [List.any_eq_true]
  constructor
  · rintro ⟨p, hp, hb⟩
    exact List.mem_map.2 ⟨p, hp, eq_of_beq hb⟩
  · intro h
    rcases List.mem_map.1 h with ⟨p, hp, he⟩
    exact ⟨p, hp, by simp [he]⟩

theorem scanFold_events_newPost (draft : DraftFn) (knowledge : List String) (now : ℕ) :
    ∀ (cs : List InsertPost) (acc : ScanAcc),
      (∀ e ∈ acc.events, ∃ p, e = Event.newPost p) →
      ∀ e ∈ (cs.foldl (scanStep draft knowledge now) acc).events,
        ∃ p, e = Event.newPost p := by
  intro cs
  induction cs with
  | nil => intro acc h; simpa using h
  | cons c cs ih =>
    intro acc h
    rw [List.foldl_cons]
    apply ih
    intro e he
    cases hx : postExistsByRedditId acc.posts c.redditId with
    | true =>
      simp only [scanStep, hx, if_true] at he
      exact h e he
    | false =>
      rcases hd : draft c.title c.content c.subreddit knowledge with msg | ai <;>
        simp only [scanStep, hx, hd, Bool.false_eq_true, if_false,
          List.mem_append, List.mem_singleton] at he
      · exact h e he
      · rcases he with he | he
        · exact h e he
        · exact ⟨_, he⟩

theorem scanFold_nodup (draft : DraftFn) (knowledge : List String) (now : ℕ) :
    ∀ (cs : List InsertPost) (acc : ScanAcc),
      (storeIds acc.posts).Nodup →
      (storeIds (cs.foldl (scanStep draft knowledge now) acc).posts).Nodup := by
  intro cs
  induction cs with
  | nil => intro acc h; simpa using h
  | cons c cs ih =>
    intro acc h
    rw [List.foldl_cons]
    apply ih
    cases hx : postExistsByRedditId acc.posts c.redditId with
    | true => simpa [scanStep, hx] using h
    | false =>
      have hnot : c.redditId ∉ storeIds acc.posts := by
        intro hmem
        rw [← postExists_iff] at hmem
        rw [hx] at hmem
        cases hmem
      rcases hd : draft c.title c.content c.subreddit knowledge with msg | ai <;>
        simp only [scanStep, hx, hd, Bool.false_eq_true, if_false] <;>
        · rw [storeIds_append, List.nodup_append]
          refine ⟨h, by simp [storeIds], ?_⟩
          intro a ha hb
          simp only [storeIds, createPost, List.map_cons, List.map_nil,
            List.mem_singleton] at hb
          subst hb
          exact hnot ha

/-- Invariant of the per-candidate loop for a fixed external id `rid` already
present in the store: the loop keeps the id set duplicate-free, keeps `rid`
present, leaves the stored records with id `rid` untouched, broadcasts no
`newPost` event for `rid`, and never invokes the drafting adapter for
`rid`. -/
theorem scanFold_preserves_existing (draft : DraftFn) (knowledge : List String)
    (now : ℕ) (rid : String) (frozen : List Post) :
    ∀ (cs : List InsertPost) (acc : ScanAcc),
      (storeIds acc.posts).Nodup →
      rid ∈ storeIds acc.posts →
      acc.posts.filter (fun p => p.redditId == rid) = frozen →
      (∀ p, Event.newPost p ∈ acc.events → p.redditId ≠ rid) →
      rid ∉ acc.drafted →
      ((storeIds (cs.foldl (scanStep draft knowledge now) acc).posts).Nodup ∧
        rid ∈ storeIds (cs.foldl (scanStep draft knowledge now) acc).posts ∧
        (cs.foldl (scanStep draft knowledge now) acc).posts.filter
          (fun p => p.redditId == rid) = frozen ∧
        (∀ p, Event.newPost p ∈ (cs.foldl (scanStep draft knowledge now) acc).events →
          p.redditId ≠ rid) ∧
        rid ∉ (cs.foldl (scanStep draft knowledge now) acc).drafted) := by
  intro cs
  induction cs with
  | nil =>
    intro acc h1 h2 h3 h4 h5
    simpa using ⟨h1, h2, h3, h4, h5⟩
  | cons c cs ih =>
    intro acc h1 h2 h3 h4 h5
    rw [List.foldl_cons]
    cases hx : postExistsByRedditId acc.posts c.redditId with
    | true =>
      have hstep : scanStep draft knowledge now acc c = acc := by
        simp [scanStep, hx]
      rw [hstep]
      exact ih acc h1 h2 h3 h4 h5
    | false =>
      have hnot : c.redditId ∉ storeIds acc.posts := by
        intro hmem
        rw [← postExists_iff] at hmem
        rw [hx] at hmem
        cases hmem
      have hne : c.redditId ≠ rid := fun he => hnot (he ▸ h2)
      have hgen : ∀ q : Post, q.redditId = c.redditId →
          ((storeIds (acc.posts ++ [q])).Nodup ∧
            rid ∈ storeIds (acc.posts ++ [q]) ∧
            (acc.posts ++ [q]).filter (fun p => p.redditId == rid) = frozen ∧
            rid ∉ acc.drafted ++ [c.redditId]) := by
        intro q hq
        refine ⟨?_, ?_, ?_, ?_⟩
        · rw [storeIds_append, List.nodup_append]
          refine ⟨h1, by simp [storeIds], ?_⟩
          intro a ha hb
          simp only [storeIds, List.map_cons, List.map_nil,
            List.mem_singleton] at hb
          subst hb
          exact hnot (hq ▸ ha)
        · rw [storeIds_append]
          exact List.mem_append_left _ h2
        · rw [List.filter_append]
          have hnil : List.filter (fun p => p.redditId == rid) [q] = [] := by
            simp [hq, hne]
          rw [hnil, List.append_nil]
          exact h3
        · intro hmem
          rcases List.mem_append.1 hmem with hmem | hmem
          · exact h5 hmem
          · simp only [List.mem_singleton] at hmem
            exact hne hmem.symm
      rcases hd : draft c.title c.content c.subreddit knowledge with msg | ai
      · simp only [scanStep, hx, hd, Bool.false_eq_true, if_false]
        obtain ⟨g1, g2, g3, g5⟩ := hgen (createPost now c) rfl
        exact ih _ g1 g2 g3 h4 g5
      · simp only [scanStep, hx, hd, Bool.false_eq_true, if_false]
        obtain ⟨g1, g2, g3, g5⟩ := hgen
          (createPost now
            { c with proposedReply := some ai.reply, confidence := ai.confidence }) rfl
        refine ih _ g1 g2 g3 ?_ g5
        intro p hp
        rcases List.mem_append.1 hp with hp | hp
        · exact h4 p hp
        · simp only [List.mem_singleton] at hp
          injection hp with hp
          subst hp
          exact hne

/-- Each candidate processed by the loop either is skipped or adds exactly one
stored post and one to `newPostsCount`. -/
theorem scanFold_length (draft : DraftFn) (knowledge : List String) (now : ℕ) :
    ∀ (cs : List InsertPost) (acc : ScanAcc),
      (cs.foldl (scanStep draft knowledge now) acc).posts.length + acc.newCount
        = acc.posts.length + (cs.foldl (scanStep draft knowledge now) acc).newCount := by
  intro cs
  induction cs with
  | nil => intro acc; simp
  | cons c cs ih =>
    intro acc
    rw [List.foldl_cons]
    have hstep : (scanStep draft knowledge now acc c).posts.length + acc.newCount
        = acc.posts.length + (scanStep draft knowledge now acc c).newCount := by
      cases hx : postExistsByRedditId acc.posts c.redditId with
      | true => simp [scanStep, hx]
      | false =>
        rcases hd : draft c.title c.content c.subreddit knowledge with msg | ai <;>
          simp [scanStep, hx, hd] <;> omega
    have := ih (scanStep draft knowledge now acc c)
    omega

/-! ### Helper lemmas about the channel loop of `searchPosts` -/

/-- Every run of the channel loop either returns the accumulated candidates
followed by all successfully fetched contributions, or stops with an error at
some failed channel before which nothing had accumulated. -/
theorem searchPostsAux_dichotomy (now_ms : ℚ) (keywords : List String) :
    ∀ (chans : List (String × Fetch)) (acc : List InsertPost),
      searchPostsAux now_ms keywords chans acc
          = .ok (acc ++ okContrib now_ms keywords chans) ∨
        ∃ pre sub msg rest, chans = pre ++ (sub, Fetch.err msg) :: rest ∧
          acc ++ okContrib now_ms keywords pre = [] ∧
          ∃ e, searchPostsAux now_ms keywords chans acc = .error e := by
  intro chans
  induction chans with
  | nil =>
    intro acc
    left
    simp [searchPostsAux, okContrib]
  | cons hd rest ih =>
    intro acc
    rcases hd with ⟨sub, f⟩
    cases f with
    | ok raw =>
      rcases ih (acc ++ channelPosts now_ms keywords sub raw) with h | ⟨pre, s, m, r, hc, he, e, hrun⟩
      · left
        rw [searchPostsAux, h, okContrib]
        simp
      · right
        refine ⟨(sub, Fetch.ok raw) :: pre, s, m, r, by rw [hc, List.cons_append], ?_, e, ?_⟩
        · rw [okContrib, ← List.append_assoc]
          exact he
        · rw [searchPostsAux]
          exact hrun
    | err msg =>
      by_cases hacc : acc.length = 0
      · right
        refine ⟨[], sub, msg, rest, rfl, ?_, ?_⟩
        · rw [okContrib, List.append_nil]
          exact List.length_eq_zero.mp hacc
        · exact ⟨_, by rw [searchPostsAux, if_pos hacc]⟩
      · rcases ih acc with h | ⟨pre, s, m, r, hc, he, e, hrun⟩
        · left
          rw [searchPostsAux, if_neg hacc, h, okContrib]
        · right
          refine ⟨(sub, Fetch.err msg) :: pre, s, m, r, by rw [hc, List.cons_append], ?_, e, ?_⟩
          · rw [okContrib]
            exact he
          · rw [searchPostsAux, if_neg hacc]
            exact hrun

/-- Whenever the channel list contains a failing channel with no accumulated
candidates before it, the channel loop throws. -/
theorem searchPostsAux_error_of_split (now_ms : ℚ) (keywords : List String) :
    ∀ (pre : List (String × Fetch)) (acc : List InsertPost)
      (sub msg : String) (rest : List (String × Fetch)),
      acc ++ okContrib now_ms keywords pre = [] →
      ∃ e, searchPostsAux now_ms keywords (pre ++ (sub, Fetch.err msg) :: rest) acc
        = .error e := by
  intro pre
  induction pre with
  | nil =>
    intro acc sub msg rest h
    rw [okContrib, List.append_nil] at h
    subst h
    exact ⟨_, by rw [List.nil_append, searchPostsAux,
      if_pos (show ([] : List InsertPost).length = 0 from rfl)]⟩
  | cons hd pre ih =>
    intro acc sub msg rest h
    rcases hd with ⟨s, f⟩
    cases f with
    | ok raw =>
      rw [okContrib, ← List.append_assoc] at h
      rcases ih (acc ++ channelPosts now_ms keywords s raw) sub msg rest h with ⟨e, hrun⟩
      refine ⟨e, ?_⟩
      rw [List.cons_append, searchPostsAux]
      exact hrun
    | err m =>
      rw [okContrib] at h
      rcases List.append_eq_nil.mp h with ⟨h1, h2⟩
      subst h1
      exact ⟨_, by rw [List.cons_append, searchPostsAux,
        if_pos (show ([] : List InsertPost).length = 0 from rfl)]⟩

/-- `searchPosts` throws exactly when its channel list has a failing channel
before which the successfully fetched channels contributed no candidates. -/
theorem searchPosts_error_iff (now_ms : ℚ) (keywords : List String)
    (chans : List (String × Fetch)) :
    (∃ e, searchPosts now_ms chans keywords = .error e) ↔
      ∃ pre sub msg rest, chans = pre ++ (sub, Fetch.err msg) :: rest ∧
        okContrib now_ms keywords pre = [] := by
  constructor
  · rintro ⟨e, he⟩
    unfold searchPosts at he
    rcases searchPostsAux_dichotomy now_ms keywords chans [] with h |
      ⟨pre, sub, msg, rest, hc, hemp, e', hrun⟩
    · rw [h] at he
      cases he
    · exact ⟨pre, sub, msg, rest, hc, by simpa using hemp⟩
  · rintro ⟨pre, sub, msg, rest, hc, hemp⟩
    subst hc
    rcases searchPostsAux_error_of_split now_ms keywords pre [] sub msg rest
      (by simpa using hemp) with ⟨e, hrun⟩
    refine ⟨e, ?_⟩
    unfold searchPosts
    rw [hrun]
    rfl

/-! ### The claims -/

/-- C2. Score bounds: for every candidate (any natural upvote count and
comment count, any creation time, any matched/universe keyword sets with a
non-empty universe) the urgency score lies in `[0, 1]`. -/
theorem C2_score_bounds (now_ms : ℚ) (p : RawPost) (matched allKeywords : List String)
    (hups : ∃ n : ℕ, p.ups = (n : ℚ)) (hcom : ∃ n : ℕ, p.num_comments = (n : ℚ))
    (hall : allKeywords ≠ []) :
    0 ≤ calculateUrgencyScore now_ms p matched allKeywords ∧
      calculateUrgencyScore now_ms p matched allKeywords ≤ 1 := by
  obtain ⟨u, hu⟩ := hups
  obtain ⟨v, hv⟩ := hcom
  simp only [calculateUrgencyScore]
  constructor
  · apply le_min
    · norm_num
    · have h1 : (0:ℚ) ≤ (matched.length : ℚ) / (allKeywords.length : ℚ) * 0.3 := by
        apply mul_nonneg
        · exact div_nonneg (by positivity) (by positivity)
        · norm_num
      have h2 : (0:ℚ) ≤ min 0.25 ((p.ups + p.num_comments) / 100) := by
        apply le_min
        · norm_num
        · rw [hu, hv]
          positivity
      have h3 : (0:ℚ) ≤ max 0
          (0.2 - (now_ms - p.created_utc * 1000) / (1000 * 60 * 60) / 24 * 0.2) :=
        le_max_left _ _
      have h4 : (0:ℚ) ≤ min 0.15
          (((urgentKeywords.filter (fun w => jsIncludes (postTextOf p) w)).length : ℚ)
            * 0.05) := by
        apply le_min
        · norm_num
        · positivity
      have h5 : (0:ℚ) ≤ min 0.1
          (((questionIndicators.filter (fun w => jsIncludes (postTextOf p) w)).length : ℚ)
            * 0.02) := by
        apply le_min
        · norm_num
        · positivity
      linarith
  · exact min_le_left _ _

theorem C2_score_bounds_witness :
    0 ≤ calculateUrgencyScore 3600000 c2raw ["react"] ["react"] ∧
      calculateUrgencyScore 3600000 c2raw ["react"] ["react"] ≤ 1 :=
  C2_score_bounds 3600000 c2raw ["react"] ["react"]
    ⟨5, by norm_num [c2raw]⟩ ⟨2, by norm_num [c2raw]⟩ (by simp)

/-- C3. Category thresholds: `critical` exactly on `s ≥ 0.80`, `high` exactly
on `0.60 ≤ s < 0.80`, `medium` exactly on `0.40 ≤ s < 0.60`, `low` exactly on
`s < 0.40`; in particular `0.80 ↦ critical` and `0.7999 ↦ high`. -/
theorem C3_priority_thresholds :
    (∀ s : ℚ,
      (determinePriority s = Priority.critical ↔ 0.8 ≤ s) ∧
      (determinePriority s = Priority.high ↔ 0.6 ≤ s ∧ s < 0.8) ∧
      (determinePriority s = Priority.medium ↔ 0.4 ≤ s ∧ s < 0.6) ∧
      (determinePriority s = Priority.low ↔ s < 0.4)) ∧
    determinePriority 0.8 = Priority.critical ∧
    determinePriority 0.7999 = Priority.high := by
  refine ⟨?_, by norm_num [determinePriority], by norm_num [determinePriority]⟩
  intro s
  unfold determinePriority
  split_ifs with h1 h2 h3
  · rw [ge_iff_le] at h1
    refine ⟨?_, ?_, ?_, ?_⟩ <;> simp [h1, not_and, not_lt, not_le] <;>
      first | linarith | (intro _; linarith)
  · rw [ge_iff_le, not_le] at h1
    rw [ge_iff_le] at h2
    refine ⟨?_, ?_, ?_, ?_⟩ <;> simp [h1, h2, not_and, not_lt, not_le] <;>
      first | linarith | (intro _; linarith)
  · rw [ge_iff_le, not_le] at h1
    rw [ge_iff_le, not_le] at h2
    rw [ge_iff_le] at h3
    refine ⟨?_, ?_, ?_, ?_⟩ <;> simp [h1, h2, h3, not_and, not_lt, not_le] <;> first | linarith | (intro _; linarith)
  · rw [ge_iff_le, not_le] at h1
    rw [ge_iff_le, not_le] at h2
    rw [ge_iff_le, not_le] at h3
    refine ⟨?_, ?_, ?_, ?_⟩ <;> simp [h1, h2, h3, not_and, not_lt, not_le] <;>
      first | linarith | (intro _; linarith)

/-! ### Unfolding equations for `scanReddit` -/

theorem scanReddit_not_configured (fetched : Except String (List InsertPost))
    (draft : DraftFn) (now : ℕ) (st : StoreState) :
    scanReddit false fetched draft now st
      = { state := st, events := [], drafted := [] } := rfl

theorem scanReddit_err (e : String) (draft : DraftFn) (now : ℕ) (st : StoreState) :
    scanReddit true (.error e) draft now st
      = { state := st, events := [Event.scanError e], drafted := [] } := rfl

theorem scanReddit_ok (cs : List InsertPost) (draft : DraftFn) (now : ℕ)
    (st : StoreState) :
    scanReddit true (.ok cs) draft now st
      = { state :=
            { posts := (scanLoop draft now st cs).posts
              config := match st.config with
                | some c => some { c with
                    lastScanTime := some now
                    totalPosts := c.totalPosts + cs.length
                    newPosts := (scanLoop draft now st cs).newCount }
                | none => none
              knowledge := st.knowledge }
          events := (scanLoop draft now st cs).events
            ++ [Event.scanComplete cs.length (scanLoop draft now st cs).newCount now]
          drafted := (scanLoop draft now st cs).drafted } := rfl

/-- C1. Deduplication invariant: in any scan cycle over a store whose external
ids are duplicate-free, an external id already present before the cycle is
never re-created (its stored records are exactly those from before), never
re-drafted (the drafting adapter is not invoked for it), never re-broadcast
(no `newPost` event carries it), and the store keeps its external ids
duplicate-free. -/
theorem C1_dedup (configured : Bool) (fetched : Except String (List InsertPost))
    (draft : DraftFn) (now : ℕ) (st : StoreState)
    (hnodup : (storeIds st.posts).Nodup) :
    (storeIds (scanReddit configured fetched draft now st).state.posts).Nodup ∧
    ∀ rid, rid ∈ storeIds st.posts →
      (scanReddit configured fetched draft now st).state.posts.filter
          (fun p => p.redditId == rid)
        = st.posts.filter (fun p => p.redditId == rid) ∧
      (∀ p, Event.newPost p ∈ (scanReddit configured fetched draft now st).events →
        p.redditId ≠ rid) ∧
      rid ∉ (scanReddit configured fetched draft now st).drafted := by
  cases configured with
  | false =>
    rw [scanReddit_not_configured]
    refine ⟨hnodup, fun rid hrid => ⟨rfl, ?_, ?_⟩⟩
    · intro p hp
      exact absurd hp (List.not_mem_nil _)
    · exact List.not_mem_nil _
  | true =>
    cases fetched with
    | error e =>
      rw [scanReddit_err]
      refine ⟨hnodup, fun rid hrid => ⟨rfl, ?_, ?_⟩⟩
      · intro p hp
        simp at hp
      · exact List.not_mem_nil _
    | ok cs =>
      rw [scanReddit_ok]
      constructor
      · exact scanFold_nodup draft st.knowledge now cs
          { posts := st.posts, events := [], newCount := 0, drafted := [] } hnodup
      · intro rid hrid
        obtain ⟨g1, g2, g3, g4, g5⟩ :=
          scanFold_preserves_existing draft st.knowledge now rid
            (st.posts.filter (fun p => p.redditId == rid)) cs
            { posts := st.posts, events := [], newCount := 0, drafted := [] }
            hnodup hrid rfl (fun p hp => absurd hp (List.not_mem_nil _))
            (List.not_mem_nil _)
        refine ⟨g3, ?_, g5⟩
        intro p hp
        rcases List.mem_append.1 hp with hmem | hmem
        · exact g4 p hmem
        · simp at hmem

theorem C1_dedup_witness :
    (scanReddit true (Except.ok [c1cand]) c1draft 7 c1store).state.posts.filter
        (fun p => p.redditId == "dup1")
      = c1store.posts.filter (fun p => p.redditId == "dup1") ∧
    "dup1" ∉ (scanReddit true (Except.ok [c1cand]) c1draft 7 c1store).drafted ∧
    (storeIds (scanReddit true (Except.ok [c1cand]) c1draft 7 c1store).state.posts).Nodup := by
  obtain ⟨g1, grest⟩ :=
    C1_dedup true (Except.ok [c1cand]) c1draft 7 c1store (by decide)
  obtain ⟨ga, gb, gc⟩ := grest "dup1" (by decide)
  exact ⟨ga, gc, g1⟩

/-- C5 counterexample: with two channels where the first succeeds but yields
no matching results and the second throws, `searchPosts` propagates the error
even though the failing channel is not the first to be queried — refuting the
claim that propagation happens only when the failing channel is the first. -/
theorem C5_counterexample :
    ∃ e, searchPosts 0 [("chanA", Fetch.ok []), ("chanB", Fetch.err "boom")]
      ["react"] = Except.error e :=
  ⟨"Failed to fetch posts from r/chanB: boom", rfl⟩

/-- C5 (amended). A channel failure is swallowed exactly when some candidate
has already accumulated at the time of failure, and propagated exactly when
the accumulated results are empty at that time — whether or not the failing
channel is the first; when no failure propagates, the scan returns the sorted
partial data of the successful channels, and a cycle over a successful fetch
emits `scanComplete` and never `scanError`. -/
theorem C5_partial_failure :
    (∀ (now_ms : ℚ) (keywords : List String) (chans : List (String × Fetch)),
      (∃ e, searchPosts now_ms chans keywords = .error e) ↔
        ∃ pre sub msg rest, chans = pre ++ (sub, Fetch.err msg) :: rest ∧
          okContrib now_ms keywords pre = []) ∧
    (∀ (now_ms : ℚ) (keywords : List String) (chans : List (String × Fetch)),
      (¬ ∃ pre sub msg rest, chans = pre ++ (sub, Fetch.err msg) :: rest ∧
          okContrib now_ms keywords pre = []) →
      searchPosts now_ms chans keywords
        = .ok (sortPosts (okContrib now_ms keywords chans))) ∧
    (∀ (cs : List InsertPost) (draft : DraftFn) (now : ℕ) (st : StoreState),
      (∀ m, Event.scanError m ∉ (scanReddit true (.ok cs) draft now st).events) ∧
      Event.scanComplete cs.length (scanLoop draft now st cs).newCount now
        ∈ (scanReddit true (.ok cs) draft now st).events) := by
  refine ⟨searchPosts_error_iff, ?_, ?_⟩
  · intro now_ms keywords chans hn
    rcases searchPostsAux_dichotomy now_ms keywords chans [] with h |
      ⟨pre, sub, msg, rest, hc, hemp, e, hrun⟩
    · rw [List.nil_append] at h
      unfold searchPosts
      rw [h]
      rfl
    · exact absurd ⟨pre, sub, msg, rest, hc, by simpa using hemp⟩ hn
  · intro cs draft now st
    rw [scanReddit_ok]
    constructor
    · intro m hm
      rcases List.mem_append.1 hm with hmem | hmem
      · obtain ⟨p, hp⟩ := scanFold_events_newPost draft st.knowledge now cs
          { posts := st.posts, events := [], newCount := 0, drafted := [] }
          (fun e he => absurd he (List.not_mem_nil _)) _ hmem
        cases hp
      · simp at hmem
    · exact List.mem_append_right _ (List.mem_singleton.2 rfl)

theorem C5_partial_failure_witness :
    ∃ e, searchPosts 0 [("chanC", Fetch.err "down")] ["react"] = Except.error e :=
  (C5_partial_failure.1 0 ["react"] [("chanC", Fetch.err "down")]).mpr
    ⟨[], "chanC", "down", [], rfl, rfl⟩

/-- C6 counterexample: a cycle with one new candidate whose draft throws
persists and counts the candidate but broadcasts no `newPost` event — the
cycle's only event is `scanComplete` — refuting the claim that a "new item"
event is emitted exactly as for a successful draft. -/
theorem C6_counterexample :
    (scanReddit true (Except.ok [c6cand]) c6draft 3
        { posts := [], config := none, knowledge := [] }).events
      = [Event.scanComplete 1 1 3] ∧
    (scanReddit true (Except.ok [c6cand]) c6draft 3
        { posts := [], config := none, knowledge := [] }).state.posts.length = 1 :=
  ⟨rfl, rfl⟩

/-- C6 (amended). Drafting-failure tolerance: when the draft call throws for a
new candidate, the loop step does not abort — the item is persisted (without a
drafted reply) and counted in the cycle's new-item count — but, unlike the
successful-draft path, no `newPost` event is emitted for it. -/
theorem C6_draft_failure_tolerated (draft : DraftFn) (knowledge : List String)
    (now : ℕ) (acc : ScanAcc) (c : InsertPost) (e : String)
    (hnew : postExistsByRedditId acc.posts c.redditId = false)
    (hfail : draft c.title c.content c.subreddit knowledge = .error e)
    (hnorep : c.proposedReply = none) :
    scanStep draft knowledge now acc c =
      { posts := acc.posts ++ [createPost now c]
        events := acc.events
        newCount := acc.newCount + 1
        drafted := acc.drafted ++ [c.redditId] } ∧
    (createPost now c).proposedReply = none := by
  constructor
  · simp [scanStep, hnew, hfail]
  · simpa [createPost] using hnorep

theorem C6_draft_failure_tolerated_witness :
    scanStep c6draft [] 3 { posts := [], events := [], newCount := 0, drafted := [] }
        c6cand
      = { posts := [createPost 3 c6cand], events := [], newCount := 1,
          drafted := ["new1"] } ∧
    (createPost 3 c6cand).proposedReply = none :=
  C6_draft_failure_tolerated c6draft [] 3
    { posts := [], events := [], newCount := 0, drafted := [] } c6cand
    "llm down" rfl rfl rfl

/-- C7. Cycle completion: for a cycle whose fetch succeeded and whose store
holds a config, the config is updated with last-scan time `now`, the total
counter increased by the number of fetched candidates and the last-cycle
counter set to the number of items actually created (the store grew by exactly
that many posts); the `scanComplete` event carrying
`(totalFetched, newCount, now)` is always emitted, after all of the cycle's
`newPost` events (every earlier event of the cycle is a `newPost`). -/
theorem C7_cycle_completion (cs : List InsertPost) (draft : DraftFn) (now : ℕ)
    (st : StoreState) (c0 : MonitoringConfig) (hc : st.config = some c0) :
    (scanReddit true (.ok cs) draft now st).state.config
      = some { c0 with
          lastScanTime := some now
          totalPosts := c0.totalPosts + cs.length
          newPosts := (scanLoop draft now st cs).newCount } ∧
    (scanReddit true (.ok cs) draft now st).events
      = (scanLoop draft now st cs).events
        ++ [Event.scanComplete cs.length (scanLoop draft now st cs).newCount now] ∧
    (∀ e ∈ (scanLoop draft now st cs).events, ∃ p, e = Event.newPost p) ∧
    (scanLoop draft now st cs).posts.length
      = st.posts.length + (scanLoop draft now st cs).newCount := by
  rw [scanReddit_ok]
  refine ⟨?_, rfl, ?_, ?_⟩
  · rw [hc]
  · exact scanFold_events_newPost draft st.knowledge now cs
      { posts := st.posts, events := [], newCount := 0, drafted := [] }
      (fun e he => absurd he (List.not_mem_nil _))
  · have := scanFold_length draft st.knowledge now cs
      { posts := st.posts, events := [], newCount := 0, drafted := [] }
    simpa [scanLoop] using this

theorem C7_cycle_completion_witness :
    (scanReddit true (Except.ok []) c7draft 9 c7store).state.config
      = some { subreddits := ["demo"], keywords := ["react"], scanInterval := 5,
               isActive := true, lastScanTime := some 9, totalPosts := 2,
               newPosts := 0 } ∧
    (scanReddit true (Except.ok []) c7draft 9 c7store).events
      = [Event.scanComplete 0 0 9] :=
  ⟨(C7_cycle_completion [] c7draft 9 c7store c7cfg rfl).1,
   (C7_cycle_completion [] c7draft 9 c7store c7cfg rfl).2.1⟩

/-- C8 counterexample: with an unconfigured content source (and hence zero
candidates gathered) the scan cycle aborts silently — no `scanError` (or any
other) event is emitted and the store, counters included, is untouched —
refuting the claim that unavailability "including being unconfigured"
surfaces a `scanError`. -/
theorem C8_counterexample :
    (scanRedditFull c8env ["demo"] ["react"] c8store).events = [] ∧
    (scanRedditFull c8env ["demo"] ["react"] c8store).state = c8store :=
  ⟨rfl, rfl⟩

/-- C8 (amended). Source unavailability: when the configured search throws
(and therefore no candidates were gathered), the cycle aborts with exactly one
`scanError` event and the store — counters included — is left untouched; the
scan never touches the timer, so monitoring keeps running and retries on the
next tick.  When the source is unconfigured the cycle also aborts with the
store untouched, but silently: no `scanError` is emitted. -/
theorem C8_source_unavailable :
    (∀ (e : String) (draft : DraftFn) (now : ℕ) (st : StoreState),
      scanReddit true (.error e) draft now st
        = { state := st, events := [Event.scanError e], drafted := [] }) ∧
    (∀ (fetched : Except String (List InsertPost)) (draft : DraftFn) (now : ℕ)
        (st : StoreState),
      scanReddit false fetched draft now st
        = { state := st, events := [], drafted := [] }) :=
  ⟨fun _ _ _ _ => rfl, fun _ _ _ _ => rfl⟩

/-- C9. Idempotent stop: `stopMonitoring` is total (the model throws nowhere),
works from any state — already stopped or never started included — and on
every call clears the timer handle, flips the persisted config (when one
exists) to inactive without touching the stored posts, and emits exactly one
`monitoringStopped` event; a second call emits exactly one again. -/
theorem C9_stop_idempotent (st : MonState) :
    (stopMonitoring st).state.timer = none ∧
    (stopMonitoring st).events = [Event.monitoringStopped] ∧
    (stopMonitoring st).state.store.config
      = st.store.config.map (fun c => { c with isActive := false }) ∧
    (stopMonitoring st).state.store.posts = st.store.posts ∧
    (stopMonitoring (stopMonitoring st).state).events = [Event.monitoringStopped] :=
  ⟨rfl, rfl, rfl, rfl, rfl⟩

/-- C10. Status default: `getStatus` on a store with no persisted config
returns the well-formed inactive snapshot (empty channel and keyword lists,
interval 5, no last-scan time, both counters 0), and it never reports
`isActive = true` unless a stored config says so. -/
theorem C10_getStatus_default :
    (∀ st : StoreState, st.config = none →
      getStatus st =
        { isActive := false, subreddits := [], keywords := [], scanInterval := 5,
          lastScanTime := none, totalPosts := 0, newPosts := 0 }) ∧
    (∀ st : StoreState, (getStatus st).isActive = true →
      ∃ c, st.config = some c ∧ c.isActive = true) := by
  constructor
  · intro st h
    simp [getStatus, h, jsOrQ, jsOrNat]
  · intro st h
    rcases hc : st.config with _ | c
    · rw [getStatus] at h
      rw [hc] at h
      simp at h
    · refine ⟨c, rfl, ?_⟩
      rw [getStatus] at h
      rw [hc] at h
      simpa using h

theorem C10_getStatus_default_witness :
    getStatus { posts := [], config := none, knowledge := [] }
      = { isActive := false, subreddits := [], keywords := [], scanInterval := 5,
          lastScanTime := none, totalPosts := 0, newPosts := 0 } :=
  C10_getStatus_default.1 { posts := [], config := none, knowledge := [] } rfl

/-- C4 (code bug). After `startMonitoring` completes, the persisted config has
`isActive = false`, not `true`: the fresh config is persisted with the flag
set and then the full `stopMonitoring()` — called to clear a previous timer —
re-persists it with `isActive := false` (and broadcasts `monitoringStopped`
mid-start), while the new repeating timer is nevertheless installed.  The
evaluation below exhibits this on a fresh service (initial scan a no-op since
the client is unconfigured): the flag ends `false`, the event stream is
`[monitoringStopped, monitoringStarted]`, and the timer is installed. -/
theorem C4_start_leaves_flag_inactive :
    ((startMonitoring c4env c4st ["demo"] ["react"] 5).state.store.config.map
        (fun c => c.isActive)) = some false ∧
    (startMonitoring c4env c4st ["demo"] ["react"] 5).events
      = [Event.monitoringStopped, Event.monitoringStarted ["demo"] ["react"] 5] ∧
    (startMonitoring c4env c4st ["demo"] ["react"] 5).state.timer
      = some (["demo"], ["react"], 5) :=
  ⟨rfl, rfl, rfl⟩

end RedditAgent
